import Mathlib

/-!
Verification of the authorization and token-lifecycle subsystem of the
task-manager backend (Go, gin + gorm).  The Lean definitions below are a
shallow embedding of the source files:

* internal/middleware/auth.go      — the request gates
* internal/handlers/task.go        — task handlers with ownership checks
* internal/services/auth.go        — login, token generation, refresh
* internal/utils/jwt.go            — access-token signing and validation
* the SQL migrations               — the default role→permission policy

UUIDs are modelled as natural numbers; a string that is parsed as a UUID is
modelled by its parse outcome (empty / malformed / valid n).  Time is a
natural number of seconds.  The JWT HMAC is modelled by a concrete hash of
the secret and the claims; what the theorems use is only that validation
compares the stored tag with the recomputed one, exactly as the library
does.  External failures (database errors, random-generator failures) are
not modelled: the store operations of the model always succeed.
-/

namespace TaskManager

/-- Outcome of parsing a request string (URL parameter or refresh-token
body field) as a UUID: the gin `c.Param` result is `""` when the parameter
is missing, `uuid.FromString` fails on a malformed value, and succeeds on a
well-formed one. -/
inductive ParamStr where
  | empty : ParamStr
  | malformed : ParamStr
  | valid : Nat → ParamStr
deriving Repr, DecidableEq

/-- Result of one gin middleware gate: `pass` models `c.Next()`, and
`abort s m` models `c.JSON(s, gin.H{"error": m}); c.Abort()`. -/
inductive GateRes where
  | pass : GateRes
  | abort : Nat → String → GateRes
deriving Repr, DecidableEq

/-- Request context after `AuthMiddleware`, as read by the gates: the
values set with `c.Set` are looked up with `c.Get`, which can fail, hence
the `Option`s; `params` is the URL-parameter lookup. -/
structure Ctx where
  user_id : Option Nat
  roles : Option (List String)
  permissions : Option (List String)
  params : String → ParamStr

/-- RequireRole from middleware/auth.go lines 46-68: passes when some
required role equals some role of the caller, else 403. -/
def RequireRole (roles : List String) (c : Ctx) : GateRes :=
  match c.roles with
  | none => .abort 401 "user roles not found"
  | some rolesList =>
    if roles.any (fun requiredRole => rolesList.any (fun userRole => requiredRole == userRole)) then
      .pass
    else
      .abort 403 "insufficient permissions - role required"

/-- RequirePermission from middleware/auth.go lines 71-93: passes when the
string `resource:action` is among the caller's permissions, else 403. -/
def RequirePermission (resource action : String) (c : Ctx) : GateRes :=
  match c.permissions with
  | none => .abort 401 "user permissions not found"
  | some permissionsList =>
    let requiredPermission := resource ++ ":" ++ action
    if permissionsList.any (fun permission => permission == requiredPermission) then
      .pass
    else
      .abort 403 "insufficient permissions - permission required"

/-- RequireRoleAndPermission from middleware/auth.go lines 96-142: checks
the role first, then the permission, aborting at the first failure. -/
def RequireRoleAndPermission (role resource action : String) (c : Ctx) : GateRes :=
  match c.roles with
  | none => .abort 401 "user roles not found"
  | some rolesList =>
    let hasRole := rolesList.any (fun userRole => userRole == role)
    if !hasRole then
      .abort 403 "insufficient permissions - role required"
    else
      match c.permissions with
      | none => .abort 401 "user permissions not found"
      | some permissionsList =>
        let requiredPermission := resource ++ ":" ++ action
        if permissionsList.any (fun permission => permission == requiredPermission) then
          .pass
        else
          .abort 403 "insufficient permissions - permission required"

/-- Sequential composition of two gates, as gin runs a middleware chain:
the second gate runs only when the first called `c.Next()`. -/
def seqComp (g1 g2 : Ctx → GateRes) (c : Ctx) : GateRes :=
  match g1 c with
  | .pass => g2 c
  | r => r

/-- RequireOwnershipOrAdmin from middleware/auth.go lines 145-192: an
admin passes at once; otherwise the named URL parameter must be a
well-formed UUID equal to the caller's user id. -/
def RequireOwnershipOrAdmin (resourceIDParam : String) (c : Ctx) : GateRes :=
  match c.user_id with
  | none => .abort 401 "user not authenticated"
  | some userUUID =>
    let isAdmin :=
      match c.roles with
      | some rolesList => rolesList.any (fun role => role == "admin")
      | none => false
    if isAdmin then
      .pass
    else
      match c.params resourceIDParam with
      | .empty => .abort 400 "resource ID not provided"
      | .malformed => .abort 400 "invalid resource ID format"
      | .valid resourceUUID =>
        if resourceUUID == userUUID then
          .pass
        else
          .abort 403 "access denied - resource ownership required"

/-- RequireTaskAccess from middleware/auth.go lines 197-215: after the
admin check both branches fall through to `c.Next()`; absent roles also
fall through. -/
def RequireTaskAccess (c : Ctx) : GateRes :=
  match c.roles with
  | some rolesList =>
    if rolesList.any (fun role => role == "admin") then .pass else .pass
  | none => .pass

/-- RequireTaskManagementAccess from middleware/auth.go lines 242-264:
absent roles abort with 401; with roles present, both the admin branch and
the fall-through branch call `c.Next()`. -/
def RequireTaskManagementAccess (c : Ctx) : GateRes :=
  match c.roles with
  | none => .abort 401 "user roles not found"
  | some rolesList =>
    if rolesList.any (fun role => role == "admin") then .pass else .pass

/-- Access-token claims from utils/jwt.go lines 17-23: identity plus the
authorization attributes and the registered issued-at / expires-at. -/
structure Claims where
  userID : Nat
  username : String
  roles : List String
  permissions : List String
  iat : Nat
  exp : Nat
deriving Repr, DecidableEq

/-- Error taxonomy of the authentication services (the distinct `error`
values created in utils/jwt.go and services/auth.go). -/
inductive AuthErr where
  | invalidToken : AuthErr
  | expiredToken : AuthErr
  | invalidCredentials : AuthErr
  | invalidRefreshToken : AuthErr
  | refreshTokenExpired : AuthErr
  | internalError : AuthErr
  | issuanceFailed : AuthErr
deriving Repr, DecidableEq

/-- Serialized access token on the wire: either a string the JWT library
cannot parse at all, or a payload of claims together with the HMAC tag the
issuer attached. -/
inductive TokenStr where
  | malformed : TokenStr
  | signed : Claims → Nat → TokenStr
deriving Repr, DecidableEq

/-- Polynomial string hash standing in for HMAC-SHA256: the model only
needs that validation recomputes the tag from the secret and the payload
and compares, as jwt.ParseWithClaims does. -/
def strHash (s : String) : Nat :=
  s.foldl (fun h ch => (h * 31 + ch.toNat) % (2 ^ 64)) 5381

/-- Rendering of the claims that is fed to the MAC, mirroring the JSON
payload of the JWT. -/
def serializeClaims (c : Claims) : String :=
  String.intercalate "|"
    ([toString c.userID, c.username] ++ c.roles ++ c.permissions ++
      [toString c.iat, toString c.exp])

/-- MAC tag over the serialized claims under the server secret. -/
def macSign (secret : String) (c : Claims) : Nat :=
  strHash (secret ++ "." ++ serializeClaims c)

/-- GenerateAccessToken from utils/jwt.go lines 33-47: builds the claims
with a one-hour expiry and signs them with the server secret. -/
def GenerateAccessToken (secret : String) (now : Nat) (userID : Nat)
    (username : String) (roles permissions : List String) : TokenStr :=
  let claims : Claims :=
    { userID := userID, username := username, roles := roles,
      permissions := permissions, iat := now, exp := now + 3600 }
  .signed claims (macSign secret claims)

/-- ValidateAccessToken from utils/jwt.go lines 49-66: a parse or
signature failure yields ErrInvalidToken, an expired but correctly signed
token yields ErrExpiredToken (the library verifies the signature before it
validates the claims), and otherwise the embedded claims are returned
unchanged. -/
def ValidateAccessToken (secret : String) (now : Nat) :
    TokenStr → Except AuthErr Claims
  | .malformed => .error .invalidToken
  | .signed claims tag =>
    if tag ≠ macSign secret claims then .error .invalidToken
    else if claims.exp < now then .error .expiredToken
    else .ok claims

/-- User record from the models package: id, unique username, email and
bcrypt password hash. -/
structure User where
  id : Nat
  username : String
  email : String
  password : String
deriving Repr, DecidableEq

/-- Role record: id and unique name. -/
structure Role where
  id : Nat
  name : String
deriving Repr, DecidableEq

/-- Permission record: id and the (resource, action) pair. -/
structure Permission where
  id : Nat
  resource : String
  action : String
deriving Repr, DecidableEq

/-- Refresh-token row from models.Token as built in services/auth.go lines
65-70: primary key, owning user, opaque refresh value, expiry. -/
structure TokenRow where
  id : Nat
  userId : Nat
  refreshToken : Nat
  expiresAt : Nat
deriving Repr, DecidableEq

/-- Task record from models/task.go; the fields beyond id and user_id ride
along so the create/update handlers can be embedded faithfully. -/
structure Task where
  id : Nat
  title : String
  description : String
  status : String
  priority : String
  userID : Nat
deriving Repr, DecidableEq

/-- Relational store at the boundary of the authorization core: the
users, tasks, refresh-token rows, and the role→permission policy tables
(user_roles and role_permissions are the two join tables). -/
structure Store where
  users : List User
  tasks : List Task
  tokens : List TokenRow
  roles : List Role
  userRoles : List (Nat × Nat)
  rolePermissions : List (Nat × Nat)
  permissions : List Permission
deriving Repr, DecidableEq

/-- LoginUser from services/auth.go lines 32-47, parametrized by the
bcrypt comparison (an external library call): an absent username and a
password mismatch both produce the invalid-credentials error. -/
def LoginUser (verify : String → String → Bool) (db : Store)
    (username password : String) : Except AuthErr User :=
  match db.users.find? (fun u => u.username == username) with
  | none => .error .invalidCredentials
  | some user =>
    if !(verify user.password password) then .error .invalidCredentials
    else .ok user

/-- Modelled from the spec: the role and permission resolution used by
token issuance.  services/auth.go as shipped calls
utils.GenerateAccessToken(userID, username) with two arguments while the
function in utils/jwt.go takes roles and permissions as well, so the
resolution step is absent from the source; section 4.2 of the spec says to
resolve the user's roles from the store.  This returns the names of the
roles assigned to the user through user_roles. -/
def rolesOfUser (db : Store) (userID : Nat) : List String :=
  (db.userRoles.filter (fun ur => ur.1 == userID)).filterMap
    (fun ur => (db.roles.find? (fun r => r.id == ur.2)).map (fun r => r.name))

/-- Permissions of one role through role_permissions, rendered in the wire
format `resource:action`. -/
def permissionsOfRole (db : Store) (roleID : Nat) : List String :=
  (db.rolePermissions.filter (fun rp => rp.1 == roleID)).filterMap
    (fun rp => (db.permissions.find? (fun p => p.id == rp.2)).map
      (fun p => p.resource ++ ":" ++ p.action))

/-- Modelled from the spec: the union of permissions across the user's
roles, de-duplicated (spec section 4.2, missing from services/auth.go for
the same reason as `rolesOfUser`). -/
def permissionsOfUser (db : Store) (userID : Nat) : List String :=
  ((db.userRoles.filter (fun ur => ur.1 == userID)).flatMap
    (fun ur => permissionsOfRole db ur.2)).dedup

/-- GenerateToken from services/auth.go lines 49-78, with the missing
role/permission resolution modelled from the spec (see `rolesOfUser`): it
signs an access token, draws a fresh refresh-token UUID `rtVal` and a
fresh row id `rowID`, persists the refresh-token row with a one-hour
expiry, and returns both tokens with the updated store. -/
def GenerateToken (db : Store) (secret : String) (now : Nat)
    (userID : Nat) (username : String) (rowID rtVal : Nat) :
    TokenStr × Nat × Store :=
  let accessToken :=
    GenerateAccessToken secret now userID username
      (rolesOfUser db userID) (permissionsOfUser db userID)
  let token : TokenRow :=
    { id := rowID, userId := userID, refreshToken := rtVal,
      expiresAt := now + 3600 }
  (accessToken, rtVal, { db with tokens := db.tokens ++ [token] })

/-- RefreshToken from services/auth.go (part_005) lines 81-124: parse the
opaque value, look the row up, reject an expired row, load the owning
user, mint a new pair with GenerateToken, then delete the old row by its
primary key. -/
def RefreshToken (db : Store) (secret : String) (now : Nat)
    (refreshToken : ParamStr) (rowID rtVal : Nat) :
    Except AuthErr (TokenStr × Nat × Store) :=
  match refreshToken with
  | .empty => .error .invalidRefreshToken
  | .malformed => .error .invalidRefreshToken
  | .valid tokenUUID =>
    match db.tokens.find? (fun t => t.refreshToken == tokenUUID) with
    | none => .error .invalidRefreshToken
    | some token =>
      if token.expiresAt < now then .error .refreshTokenExpired
      else
        match db.users.find? (fun u => u.id == token.userId) with
        | none => .error .internalError
        | some user =>
          let res := GenerateToken db secret now user.id user.username rowID rtVal
          let db2 := res.2.2
          .ok (res.1, res.2.1,
            { db2 with tokens := db2.tokens.filter (fun t => !(t.id == token.id)) })

/-- HTTP outcome of a handler, carrying the created or fetched task where
the Go handler serializes one. -/
inductive HResp where
  | ok : Task → HResp
  | created : Task → HResp
  | badRequest : HResp
  | unauthorized : HResp
  | forbidden : HResp
  | notFound : HResp
deriving Repr, DecidableEq

/-- CreateTask from handlers/task.go lines 24-76: bind the body, read the
caller's id from the context, overwrite the body's user_id with the
caller's id, draw a fresh task id when the body left it nil, and create
the row.  The roles in the context are never consulted. -/
def CreateTask (db : Store) (body : Option Task) (user_id : Option Nat)
    (roles : Option (List String)) (freshID : Nat) : HResp × Store :=
  match body with
  | none => (.badRequest, db)
  | some task =>
    match user_id with
    | none => (.unauthorized, db)
    | some userUUID =>
      let task1 := { task with userID := userUUID }
      let task2 := if task1.id == 0 then { task1 with id := freshID } else task1
      (.created task2, { db with tasks := db.tasks ++ [task2] })

/-- GetTaskByID from handlers/task.go lines 78-121: parse the id
parameter, read the caller and the admin flag from the context, load the
task (absent → 404), then allow the owner or an admin and forbid anyone
else. -/
def GetTaskByID (db : Store) (idParam : ParamStr) (user_id : Option Nat)
    (roles : Option (List String)) : HResp :=
  match idParam with
  | .empty => .badRequest
  | .malformed => .badRequest
  | .valid taskID =>
    match user_id with
    | none => .unauthorized
    | some userUUID =>
      let isAdmin :=
        match roles with
        | some rolesList => rolesList.any (fun role => role == "admin")
        | none => false
      match db.tasks.find? (fun t => t.id == taskID) with
      | none => .notFound
      | some task =>
        if !isAdmin && !(task.userID == userUUID) then .forbidden
        else .ok task

/-- Default permission table of the backend migration
001_roles_and_permissions.sql lines 52-64. -/
def permissions001 : List (String × String) :=
  [("tasks", "create"), ("tasks", "read"), ("tasks", "update"),
   ("tasks", "delete"), ("users", "read"), ("users", "update"),
   ("users", "delete")]

/-- Admin grants of migration 001 lines 66-74: every row of the
permissions table. -/
def adminPerms001 : List (String × String) :=
  permissions001

/-- User grants of migration 001 lines 76-85: the rows with resource
`tasks` and action in create/read/update/delete. -/
def userPerms001 : List (String × String) :=
  permissions001.filter (fun p =>
    p.1 == "tasks" &&
      (p.2 == "create" || p.2 == "read" || p.2 == "update" || p.2 == "delete"))

/-- Default permission table of the database-migrations set
(000006_create_permissions_table.up.sql). -/
def permissionsDBM : List (String × String) :=
  [("tasks", "create"), ("tasks", "read"), ("tasks", "update"),
   ("tasks", "delete"), ("users", "create"), ("users", "read"),
   ("users", "update"), ("users", "delete"), ("roles", "assign"),
   ("roles", "revoke")]

/-- Admin grants of the database-migrations role_permissions migration
(part_006 lines 520-526): every row of the permissions table. -/
def adminPermsDBM : List (String × String) :=
  permissionsDBM

/-- User grants of the database-migrations role_permissions migration
(part_006 lines 528-535): tasks create/read/update/delete and also
users:read. -/
def userPermsDBM : List (String × String) :=
  permissionsDBM.filter (fun p =>
    (p.1 == "tasks" &&
      (p.2 == "create" || p.2 == "read" || p.2 == "update" || p.2 == "delete")) ||
    (p.1 == "users" && p.2 == "read"))

/-- The four task permissions named by the spec for the user role. -/
def taskCrudPerms : List (String × String) :=
  [("tasks", "create"), ("tasks", "read"), ("tasks", "update"),
   ("tasks", "delete")]

/-- Over a lawful BEq, a membership scan is insensitive to the side of the
comparison; relates the loop of RequireRole (required == user) to the loop
of RequireRoleAndPermission (user == required). -/
theorem any_beq_symm {α : Type} [BEq α] [LawfulBEq α] (l : List α) (a : α) :
    l.any (fun x => a == x) = l.any (fun x => x == a) := by
  induction l with
  | nil => rfl
  | cons y ys ih =>
    have hxy : (a == y) = (y == a) := by
      by_cases h : a = y
      · subst h; rfl
      · rw [beq_eq_false_iff_ne.mpr h, beq_eq_false_iff_ne.mpr (Ne.symm h)]
    simp only [List.any_cons, ih, hxy]

/-- C3 counterexample: the claim says the default user role holds exactly
the four task permissions and no others, but the database-migrations
role_permissions migration (part_006 lines 528-535) also grants users:read
to the user role. -/
theorem default_policy_user_extra_permission :
    ("users", "read") ∈ userPermsDBM ∧ ("users", "read") ∉ taskCrudPerms := by
  decide

/-- C3 (amended): in both migration sets the admin role is granted every
row of the respective permissions table; the user role is granted exactly
the four task permissions in the backend migration 001, and those four
plus users:read in the database-migrations set. -/
theorem default_policy_role_grants :
    (∀ p, p ∈ permissions001 → p ∈ adminPerms001) ∧
    (∀ p, p ∈ permissionsDBM → p ∈ adminPermsDBM) ∧
    userPerms001 = taskCrudPerms ∧
    userPermsDBM = taskCrudPerms ++ [("users", "read")] := by
  refine ⟨fun p hp => hp, fun p hp => hp, ?_, ?_⟩ <;> decide

/-- C8: RequireRoleAndPermission(role, resource, action) coincides, on
every request context, with running RequireRole(role) and then, only when
it passed, RequirePermission(resource, action); in particular the role
check is evaluated first and the first failing check determines the
aborting Forbidden response. -/
theorem requireRoleAndPermission_eq_seqComp
    (role resource action : String) (c : Ctx) :
    RequireRoleAndPermission role resource action c =
      seqComp (RequireRole [role]) (RequirePermission resource action) c := by
  unfold RequireRoleAndPermission seqComp RequireRole RequirePermission
  cases hroles : c.roles with
  | none => rfl
  | some rolesList =>
    simp only [List.any_cons, List.any_nil, Bool.or_false, any_beq_symm]
    cases hR : rolesList.any (fun x => x == role) with
    | false => simp
    | true =>
      cases hperms : c.permissions with
      | none => simp
      | some permissionsList =>
        by_cases hP :
            permissionsList.any
              (fun permission => permission == resource ++ ":" ++ action) = true
        · simp [hP]
        · simp [hP]

/-- C10: RequireTaskAccess passes every request, roles present or absent;
RequireTaskManagementAccess passes every request whose context carries a
role list (as every authenticated request does), and never produces a 403
Forbidden response for any context. -/
theorem taskAccess_gates_never_deny :
    (∀ c : Ctx, RequireTaskAccess c = .pass) ∧
    (∀ (c : Ctx) (rs : List String), c.roles = some rs →
      RequireTaskManagementAccess c = .pass) ∧
    (∀ (c : Ctx) (m : String), RequireTaskManagementAccess c ≠ .abort 403 m) := by
  refine ⟨fun c => ?_, fun c rs h => ?_, fun c m h => ?_⟩
  · unfold RequireTaskAccess
    cases c.roles with
    | none => rfl
    | some rolesList => simp
  · unfold RequireTaskManagementAccess
    rw [h]
    simp
  · unfold RequireTaskManagementAccess at h
    cases hroles : c.roles with
    | none => rw [hroles] at h; simp at h
    | some rolesList =>
      rw [hroles] at h
      by_cases hA : rolesList.any (fun role => role == "admin") = true
      · simp [hA] at h
      · simp [hA] at h

/-- C10 witness: both gates pass a concrete authenticated non-admin
context. -/
theorem taskAccess_gates_never_deny_witness :
    RequireTaskAccess ⟨some 1, some ["user"], some [], fun _ => .empty⟩ = .pass ∧
    RequireTaskManagementAccess ⟨some 1, some ["user"], some [], fun _ => .empty⟩ = .pass :=
  ⟨taskAccess_gates_never_deny.1 ⟨some 1, some ["user"], some [], fun _ => .empty⟩,
   taskAccess_gates_never_deny.2.1 ⟨some 1, some ["user"], some [], fun _ => .empty⟩
     ["user"] rfl⟩

/-- C5: an access token that is well-formed and carries the tag computed
with the server secret but is past its expires_at fails validation with
the expired-token error; a malformed token, or one whose tag does not
match the recomputation under the server secret, fails with the
invalid-token error; and the two errors are distinct values. -/
theorem validateAccessToken_error_modes (secret : String) (now : Nat)
    (claims : Claims) (tag : Nat) :
    (tag = macSign secret claims → claims.exp < now →
      ValidateAccessToken secret now (.signed claims tag) = .error .expiredToken) ∧
    (tag ≠ macSign secret claims →
      ValidateAccessToken secret now (.signed claims tag) = .error .invalidToken) ∧
    ValidateAccessToken secret now .malformed = .error .invalidToken ∧
    AuthErr.expiredToken ≠ AuthErr.invalidToken := by
  refine ⟨fun h1 h2 => ?_, fun h => ?_, rfl, by decide⟩
  · simp [ValidateAccessToken, h1, h2]
  · simp [ValidateAccessToken, h]

/-- C5 witness: a concretely signed token validated two hours after issue
is reported expired, and the same token with a perturbed tag is reported
invalid. -/
theorem validateAccessToken_error_modes_witness :
    ValidateAccessToken "s" 7200 (.signed ⟨1, "u", ["user"], ["tasks:read"], 0, 3600⟩
        (macSign "s" ⟨1, "u", ["user"], ["tasks:read"], 0, 3600⟩)) =
      .error .expiredToken ∧
    ValidateAccessToken "s" 0 (.signed ⟨1, "u", ["user"], ["tasks:read"], 0, 3600⟩
        (macSign "s" ⟨1, "u", ["user"], ["tasks:read"], 0, 3600⟩ + 1)) =
      .error .invalidToken :=
  ⟨(validateAccessToken_error_modes "s" 7200 ⟨1, "u", ["user"], ["tasks:read"], 0, 3600⟩
      (macSign "s" ⟨1, "u", ["user"], ["tasks:read"], 0, 3600⟩)).1 rfl (by decide),
   (validateAccessToken_error_modes "s" 0 ⟨1, "u", ["user"], ["tasks:read"], 0, 3600⟩
      (macSign "s" ⟨1, "u", ["user"], ["tasks:read"], 0, 3600⟩ + 1)).2.1
      (Nat.succ_ne_self _)⟩

/-- C7: for an authenticated request, RequireOwnershipOrAdmin passes
immediately when admin is among the caller's roles, whatever the URL
parameter holds; otherwise a missing or malformed parameter aborts with
400, a well-formed parameter different from the caller's id aborts with
403, and the caller's own id passes. -/
theorem requireOwnershipOrAdmin_cases (paramName : String) (c : Ctx) (uid : Nat)
    (hauth : c.user_id = some uid) :
    ("admin" ∈ c.roles.getD [] → RequireOwnershipOrAdmin paramName c = .pass) ∧
    ("admin" ∉ c.roles.getD [] →
      (c.params paramName = .empty →
        RequireOwnershipOrAdmin paramName c = .abort 400 "resource ID not provided") ∧
      (c.params paramName = .malformed →
        RequireOwnershipOrAdmin paramName c = .abort 400 "invalid resource ID format") ∧
      (∀ rid, c.params paramName = .valid rid → rid ≠ uid →
        RequireOwnershipOrAdmin paramName c =
          .abort 403 "access denied - resource ownership required") ∧
      (∀ rid, c.params paramName = .valid rid → rid = uid →
        RequireOwnershipOrAdmin paramName c = .pass)) := by
  unfold RequireOwnershipOrAdmin
  rw [hauth]
  cases hr : c.roles with
  | none =>
    refine ⟨fun h => absurd h (List.not_mem_nil _), fun _ => ⟨?_, ?_, ?_, ?_⟩⟩
    · intro hp; rw [hp]; rfl
    · intro hp; rw [hp]; rfl
    · intro rid hp hne; rw [hp]; simp [beq_eq_false_iff_ne.mpr hne]
    · intro rid hp heq; rw [hp]; subst heq; simp
  | some rolesList =>
    by_cases hadm : "admin" ∈ rolesList
    · have hA : rolesList.any (fun role => role == "admin") = true := by
        simp only [List.any_eq_true, beq_iff_eq]
        exact ⟨"admin", hadm, rfl⟩
      refine ⟨fun _ => by simp [hA], fun h => absurd hadm h⟩
    · have hA : rolesList.any (fun role => role == "admin") = false := by
        rw [Bool.eq_false_iff]
        intro hcon
        rcases List.any_eq_true.mp hcon with ⟨x, hx, hxeq⟩
        exact hadm (beq_iff_eq.mp hxeq ▸ hx)
      refine ⟨fun h => absurd h hadm, fun _ => ⟨?_, ?_, ?_, ?_⟩⟩
      · intro hp; rw [hp]; simp [hA]
      · intro hp; rw [hp]; simp [hA]
      · intro rid hp hne; rw [hp]; simp [hA, beq_eq_false_iff_ne.mpr hne]
      · intro rid hp heq; rw [hp]; subst heq; simp [hA]

/-- C7 witness: a concrete non-admin caller requesting their own id
passes, and the same caller aborts with 403 on a different id. -/
theorem requireOwnershipOrAdmin_cases_witness :
    RequireOwnershipOrAdmin "user_id"
      ⟨some 7, some ["user"], some [], fun _ => .valid 7⟩ = .pass ∧
    RequireOwnershipOrAdmin "user_id"
      ⟨some 7, some ["user"], some [], fun _ => .valid 8⟩ =
        .abort 403 "access denied - resource ownership required" :=
  ⟨((requireOwnershipOrAdmin_cases "user_id"
      ⟨some 7, some ["user"], some [], fun _ => .valid 7⟩ 7 rfl).2
      (by decide)).2.2.2 7 rfl rfl,
   ((requireOwnershipOrAdmin_cases "user_id"
      ⟨some 7, some ["user"], some [], fun _ => .valid 8⟩ 7 rfl).2
      (by decide)).2.2.1 8 rfl (by decide)⟩

/-- C9: LoginUser returns the one invalid-credentials error both when no
stored user carries the supplied username and when the user exists but the
password comparison rejects the supplied password, so the two failure
causes are indistinguishable from the result. -/
theorem loginUser_uniform_error (verify : String → String → Bool) (db : Store)
    (username password : String) :
    (db.users.find? (fun u => u.username == username) = none →
      LoginUser verify db username password = .error .invalidCredentials) ∧
    (∀ user, db.users.find? (fun u => u.username == username) = some user →
      verify user.password password = false →
      LoginUser verify db username password = .error .invalidCredentials) := by
  constructor
  · intro h
    unfold LoginUser
    rw [h]
  · intro user h hv
    unfold LoginUser
    rw [h]
    simp [hv]

/-- C9 witness: with one stored user, an unknown username and a known
username with a rejected password both produce the invalid-credentials
error. -/
theorem loginUser_uniform_error_witness :
    LoginUser (fun _ _ => false)
      ⟨[⟨1, "alice", "alice@x", "H"⟩], [], [], [], [], [], []⟩ "bob" "pw" =
      .error .invalidCredentials ∧
    LoginUser (fun _ _ => false)
      ⟨[⟨1, "alice", "alice@x", "H"⟩], [], [], [], [], [], []⟩ "alice" "pw" =
      .error .invalidCredentials :=
  ⟨(loginUser_uniform_error (fun _ _ => false)
      ⟨[⟨1, "alice", "alice@x", "H"⟩], [], [], [], [], [], []⟩ "bob" "pw").1 rfl,
   (loginUser_uniform_error (fun _ _ => false)
      ⟨[⟨1, "alice", "alice@x", "H"⟩], [], [], [], [], [], []⟩ "alice" "pw").2
      ⟨1, "alice", "alice@x", "H"⟩ rfl rfl⟩

/-- C6: for an authenticated GetTaskByID request with a well-formed task
id, an absent task yields 404 whatever the caller's roles (the not-found
report precedes any ownership comparison); an existing task yields 200
with the task for its owner or for an admin, and 403 for a non-admin
non-owner. -/
theorem getTaskByID_ownership_cases (db : Store) (tid uid : Nat)
    (rs : List String) :
    (db.tasks.find? (fun t => t.id == tid) = none →
      GetTaskByID db (.valid tid) (some uid) (some rs) = .notFound) ∧
    (∀ task, db.tasks.find? (fun t => t.id == tid) = some task →
      (("admin" ∈ rs ∨ task.userID = uid) →
        GetTaskByID db (.valid tid) (some uid) (some rs) = .ok task) ∧
      ("admin" ∉ rs → task.userID ≠ uid →
        GetTaskByID db (.valid tid) (some uid) (some rs) = .forbidden)) := by
  constructor
  · intro h
    simp [GetTaskByID, h]
  · intro task h
    constructor
    · rintro (hadm | hown)
      · have hA : rs.any (fun role => role == "admin") = true := by
          simp only [List.any_eq_true, beq_iff_eq]
          exact ⟨"admin", hadm, rfl⟩
        simp [GetTaskByID, h, hA]
      · simp [GetTaskByID, h, hown]
    · intro hadm hown
      have hA : rs.any (fun role => role == "admin") = false := by
        rw [Bool.eq_false_iff]
        intro hcon
        rcases List.any_eq_true.mp hcon with ⟨x, hx, hxeq⟩
        exact hadm (beq_iff_eq.mp hxeq ▸ hx)
      simp [GetTaskByID, h, hA, beq_eq_false_iff_ne.mpr hown]

/-- C6 witness: with one stored task owned by user 1, the owner gets 200
with the task, a non-admin stranger gets 403, and a lookup of an absent id
gets 404. -/
theorem getTaskByID_ownership_cases_witness :
    GetTaskByID ⟨[], [⟨5, "t", "d", "pending", "high", 1⟩], [], [], [], [], []⟩
      (.valid 5) (some 1) (some ["user"]) = .ok ⟨5, "t", "d", "pending", "high", 1⟩ ∧
    GetTaskByID ⟨[], [⟨5, "t", "d", "pending", "high", 1⟩], [], [], [], [], []⟩
      (.valid 5) (some 2) (some ["user"]) = .forbidden ∧
    GetTaskByID ⟨[], [⟨5, "t", "d", "pending", "high", 1⟩], [], [], [], [], []⟩
      (.valid 6) (some 2) (some ["user"]) = .notFound :=
  ⟨((getTaskByID_ownership_cases
      ⟨[], [⟨5, "t", "d", "pending", "high", 1⟩], [], [], [], [], []⟩ 5 1 ["user"]).2
      ⟨5, "t", "d", "pending", "high", 1⟩ rfl).1 (Or.inr rfl),
   ((getTaskByID_ownership_cases
      ⟨[], [⟨5, "t", "d", "pending", "high", 1⟩], [], [], [], [], []⟩ 5 2 ["user"]).2
      ⟨5, "t", "d", "pending", "high", 1⟩ rfl).2 (by decide) (by decide),
   (getTaskByID_ownership_cases
      ⟨[], [⟨5, "t", "d", "pending", "high", 1⟩], [], [], [], [], []⟩ 6 2 ["user"]).1 rfl⟩

/-- C4 counterexample: an admin caller (id 2) supplying user_id 1 in the
request body still gets a task owned by 2 — CreateTask overwrites the
body's user_id for every caller, so the claimed admin exemption does not
hold in the code. -/
theorem createTask_no_admin_exemption :
    (CreateTask ⟨[], [], [], [], [], [], []⟩
        (some ⟨5, "t", "d", "pending", "high", 1⟩) (some 2) (some ["admin"]) 9).1 =
      .created ⟨5, "t", "d", "pending", "high", 2⟩ ∧ (2 : Nat) ≠ 1 :=
  ⟨rfl, by decide⟩

/-- C4 (amended): CreateTask forces the created task's user_id to the
caller's identity for every caller, admin or not, ignoring any
caller-supplied owner value. -/
theorem createTask_forces_ownership (db : Store) (body : Task) (uid : Nat)
    (roles : Option (List String)) (freshID : Nat) :
    ∃ t, (CreateTask db (some body) (some uid) roles freshID).1 = .created t ∧
      t.userID = uid := by
  by_cases h : body.id == 0
  · refine ⟨{ body with userID := uid, id := freshID }, ?_, rfl⟩
    simp [CreateTask, h]
  · refine ⟨{ body with userID := uid }, ?_, rfl⟩
    simp [CreateTask, h]

/-- C1: refresh tokens are single-use — when redeeming the value v
succeeds (returning a new pair and the updated store), a second redemption
of the same value against the updated store fails with the
invalid-refresh-token error.  The hypotheses state that the freshly drawn
refresh value differs from v and that rows holding the value v share one
primary key; both hold under uuid-v4 generation and the store's key
semantics. -/
theorem refreshToken_single_use
    (db : Store) (secret : String) (now now2 v rowID rtVal rowID2 rtVal2 : Nat)
    (a : TokenStr) (r : Nat) (db1 : Store)
    (hfresh : rtVal ≠ v)
    (huniq : ∀ t1 ∈ db.tokens, ∀ t2 ∈ db.tokens,
      t1.refreshToken = v → t2.refreshToken = v → t1.id = t2.id)
    (h : RefreshToken db secret now (.valid v) rowID rtVal = .ok (a, r, db1)) :
    RefreshToken db1 secret now2 (.valid v) rowID2 rtVal2 =
      .error .invalidRefreshToken := by
  simp only [RefreshToken] at h
  cases hfind : db.tokens.find? (fun t => t.refreshToken == v) with
  | none => simp [hfind] at h
  | some token =>
    simp only [hfind] at h
    by_cases hexp : token.expiresAt < now
    · simp [hexp] at h
    · rw [if_neg hexp] at h
      cases huser : db.users.find? (fun u => u.id == token.userId) with
      | none => simp [huser] at h
      | some user =>
        simp only [huser] at h
        simp only [GenerateToken, Except.ok.injEq, Prod.mk.injEq] at h
        have hdb1 : db1.tokens =
            ((db.tokens ++
                [({ id := rowID, userId := user.id, refreshToken := rtVal,
                    expiresAt := now + 3600 } : TokenRow)]).filter
              (fun t => !(t.id == token.id))) := by
          rw [← h.2.2]
        have hnone : db1.tokens.find? (fun t => t.refreshToken == v) = none := by
          rw [hdb1, List.find?_eq_none]
          intro x hx hv
          rcases List.mem_filter.mp hx with ⟨hmem, hpred⟩
          have hxv : x.refreshToken = v := beq_iff_eq.mp hv
          rcases List.mem_append.mp hmem with hold | hnew
          · have htok_mem : token ∈ db.tokens := List.mem_of_find?_eq_some hfind
            have htok_v : token.refreshToken = v := by
              simpa using List.find?_some hfind
            have hid : x.id = token.id := huniq x hold token htok_mem hxv htok_v
            rw [hid] at hpred
            simp at hpred
          · rcases List.mem_singleton.mp hnew with rfl
            exact hfresh hxv
        simp [RefreshToken, hnone]

/-- C1 witness: a one-row store redeems the value 100 once; redeeming 100
against the store the first call returned fails with the
invalid-refresh-token error. -/
theorem refreshToken_single_use_witness :
    RefreshToken
      ⟨[⟨1, "alice", "al", "H"⟩], [],
        [⟨2, 1, 101, 3600⟩], [], [], [], []⟩
      "s" 0 (.valid 100) 3 102 = .error .invalidRefreshToken :=
  refreshToken_single_use
    ⟨[⟨1, "alice", "al", "H"⟩], [], [⟨1, 1, 100, 10000⟩], [], [], [], []⟩
    "s" 0 0 100 2 101 3 102
    (.signed ⟨1, "alice", [], [], 0, 3600⟩
      (macSign "s" ⟨1, "alice", [], [], 0, 3600⟩))
    101
    ⟨[⟨1, "alice", "al", "H"⟩], [], [⟨2, 1, 101, 3600⟩], [], [], [], []⟩
    (by decide) (by decide) rfl

/-- C2: validating the access token produced by token issuance (with the
same secret, at any time within the one-hour validity window) returns
exactly the claims embedded at issuance: the caller's identity, the role
names the store assigned to the user at issuance time, and the
de-duplicated union of permissions across those roles; the permission list
has no duplicates and holds precisely the permissions reachable through
some role assignment of the user in the issuance-time store.  Validation
reads no store, so the result is unchanged by any later role change. -/
theorem generateToken_validate_roundtrip
    (db : Store) (secret : String) (now t uid : Nat) (uname : String)
    (rowID rtVal : Nat) (hvalid : t ≤ now + 3600) :
    ValidateAccessToken secret t
        (GenerateToken db secret now uid uname rowID rtVal).1 =
      .ok ⟨uid, uname, rolesOfUser db uid, permissionsOfUser db uid, now, now + 3600⟩ ∧
    (permissionsOfUser db uid).Nodup ∧
    (∀ p, p ∈ permissionsOfUser db uid ↔
      ∃ roleID, (uid, roleID) ∈ db.userRoles ∧ p ∈ permissionsOfRole db roleID) := by
  refine ⟨?_, ?_, ?_⟩
  · simp [GenerateToken, GenerateAccessToken, ValidateAccessToken,
      Nat.not_lt.mpr hvalid]
  · unfold permissionsOfUser
    exact List.nodup_dedup _
  · intro p
    unfold permissionsOfUser
    rw [List.mem_dedup, List.mem_flatMap]
    constructor
    · rintro ⟨ur, hur, hp⟩
      rcases List.mem_filter.mp hur with ⟨hmem, hfst⟩
      refine ⟨ur.2, ?_, hp⟩
      have h1 : ur.1 = uid := beq_iff_eq.mp hfst
      rwa [← h1, Prod.mk.eta]
    · rintro ⟨roleID, hmem, hp⟩
      exact ⟨(uid, roleID), List.mem_filter.mpr ⟨hmem, by simp⟩, hp⟩

/-- C2 witness: a store assigning user 1 the role `user` carrying
tasks:read issues a token that validates back, within the window, to those
exact roles and permissions. -/
theorem generateToken_validate_roundtrip_witness :
    ValidateAccessToken "s" 0
      (GenerateToken
        ⟨[⟨1, "alice", "al", "H"⟩], [], [], [⟨10, "user"⟩], [(1, 10)],
          [(10, 20)], [⟨20, "tasks", "read"⟩]⟩ "s" 0 1 "alice" 2 101).1 =
      .ok ⟨1, "alice",
        rolesOfUser
          ⟨[⟨1, "alice", "al", "H"⟩], [], [], [⟨10, "user"⟩], [(1, 10)],
            [(10, 20)], [⟨20, "tasks", "read"⟩]⟩ 1,
        permissionsOfUser
          ⟨[⟨1, "alice", "al", "H"⟩], [], [], [⟨10, "user"⟩], [(1, 10)],
            [(10, 20)], [⟨20, "tasks", "read"⟩]⟩ 1,
        0, 0 + 3600⟩ :=
  (generateToken_validate_roundtrip
    ⟨[⟨1, "alice", "al", "H"⟩], [], [], [⟨10, "user"⟩], [(1, 10)],
      [(10, 20)], [⟨20, "tasks", "read"⟩]⟩ "s" 0 0 1 "alice" 2 101
    (by decide)).1

end TaskManager
